import Mathlib

/-!
Shallow embedding of the TCS3472 color-sensor driver
(`experimental/devices/tcs3472/tcs3472.go`, complete revision) and of the
`read`/`mainImpl` logic of its command-line utility
(`experimental/cmd/tcs3472/main.go`).

The register transport (Go `mmr.Dev8` over I²C) is external to the driver;
it is modelled as an environment `BusEnv` giving, for every register, the
outcome of a single-byte read, a 16-bit big-endian read, and a single-byte
write.  Every driver operation is embedded as a function of the device
handle and such an environment, returning the updated handle, the Go
result (`error` becomes `Except`), and the list of bus transactions the
operation issued, in order.
-/

namespace Tcs3472

/-- A transport-level error (bus fault, NACK, ...), abstracted as a code.
The driver never inspects transport errors, it only propagates them. -/
structure TErr where
  code : Nat
deriving DecidableEq, Repr

deriving instance DecidableEq for Except

/-- One bus transaction issued by the driver, as seen on the wire. -/
inductive BusOp where
  | read8 (reg : Nat)
  | read16 (reg : Nat)
  | write8 (reg : Nat) (val : Nat)
deriving DecidableEq, Repr

/-- The transport environment: outcome of each possible transaction.
This is the black-box register-read/write capability of the spec. -/
structure BusEnv where
  read8 : Nat → Except TErr Nat
  read16 : Nat → Except TErr Nat
  write8 : Nat → Nat → Except TErr Unit

/-! Register/command constants, bit-exact from the source. -/

def regCmd : Nat := 0x80
def cmdAutoIncrement : Nat := 0x20

def cmdEnable : Nat := regCmd ||| 0
def cmdATime : Nat := regCmd ||| 1
def cmdGain : Nat := regCmd ||| 0x0f
def cmdChipID : Nat := regCmd ||| 0x12
def cmdStatus : Nat := regCmd ||| 0x13

def cmdReadClear : Nat := regCmd ||| cmdAutoIncrement ||| 0x14
def cmdReadRed : Nat := regCmd ||| cmdAutoIncrement ||| 0x16
def cmdReadGreen : Nat := regCmd ||| cmdAutoIncrement ||| 0x18
def cmdReadBlue : Nat := regCmd ||| cmdAutoIncrement ||| 0x1a

def chipID : Nat := 0x44
def chipIDAlt : Nat := 0x4D

def enableRGBC : Nat := 2
def enablePower : Nat := 1
def statusValid : Nat := 1

/-- Errors returned by the driver: a propagated transport error, the chip
identification mismatch of `New` (carrying the observed id byte), or the
integration-time range error of `SetIntegrationTime`. -/
inductive DriverError where
  | transport (e : TErr)
  | badChipID (id : Nat)
  | timeOutOfRange
deriving DecidableEq, Repr

/-- The device handle.  Its only driver-side state is `maxCount`
(Go `Dev.maxCount`, a `uint32`); the embedded transport handle is
supplied per call as a `BusEnv`. -/
structure Dev where
  maxCount : Nat
deriving DecidableEq, Repr

/-- Go `255 - uint8(dur.Nanoseconds()/2400000)`.  Go `/` on `int64`
truncates toward zero (`Int.tdiv`); the conversion to `uint8` keeps the
low 8 bits (`emod 256`); the subtraction is on `uint8` and cannot wrap
since the operand is at most 255. -/
def atimeOf (durNs : Int) : Nat :=
  255 - ((durNs.tdiv 2400000) % 256).toNat

/-- Go `d.maxCount = uint32(atime) * 1024; if d.maxCount > 65535 { d.maxCount = 65535 }`.
`atime ≤ 255` so the `uint32` product `atime*1024 ≤ 261120` never wraps. -/
def maxCountFromAtime (a : Nat) : Nat :=
  if a * 1024 > 65535 then 65535 else a * 1024

/-- Go `SetIntegrationTime(dur)`.  `dur` is the duration in nanoseconds
(Go `time.Duration` is an `int64` nanosecond count; `2400*time.Microsecond
= 2400000` and `612*time.Millisecond = 612000000`).  Out of range: range
error, no bus transaction.  In range: `maxCount` is assigned the derived
value BEFORE the ATIME write is attempted, then the write's outcome is
returned. -/
def SetIntegrationTime (d : Dev) (dur : Int) (env : BusEnv) :
    Dev × Except DriverError Unit × List BusOp :=
  if dur < 2400000 ∨ dur > 612000000 then
    (d, .error .timeOutOfRange, [])
  else
    ({ d with maxCount := maxCountFromAtime (atimeOf dur) },
      match env.write8 cmdATime (atimeOf dur) with
      | .error e => .error (.transport e)
      | .ok _ => .ok (),
      [BusOp.write8 cmdATime (atimeOf dur)])

/-- Go `MaxCount()`: returns the stored field. -/
def MaxCount (d : Dev) : Nat :=
  d.maxCount

/-- Go `SetGain(g)`: writes the gain code (0..3) to the control register;
does not touch `maxCount`. -/
def SetGain (d : Dev) (g : Nat) (env : BusEnv) :
    Dev × Except DriverError Unit × List BusOp :=
  (d,
    match env.write8 cmdGain g with
    | .error e => .error (.transport e)
    | .ok _ => .ok (),
    [BusOp.write8 cmdGain g])

/-- Go `Halt()`: writes zero to the enable register; does not touch
`maxCount`. -/
def Halt (d : Dev) (env : BusEnv) :
    Dev × Except DriverError Unit × List BusOp :=
  (d,
    match env.write8 cmdEnable 0 with
    | .error e => .error (.transport e)
    | .ok _ => .ok (),
    [BusOp.write8 cmdEnable 0])

/-- Go `RawValues [4]uint16`: indices ClearVal=0, RedVal=1, GreenVal=2,
BlueVal=3, embedded as named fields. -/
structure RawValues where
  clear : Nat
  red : Nat
  green : Nat
  blue : Nat
deriving DecidableEq, Repr

/-- Go `MeasureRaw()`: reads the clear, red, green and blue 16-bit
registers in that order; the first failing read aborts with that error
(in Go the partially-filled `vals` is returned next to a non-nil `err`
and is not a result; here the `Except` carries either the error or the
four values).  Does not touch `maxCount`. -/
def MeasureRaw (d : Dev) (env : BusEnv) :
    Dev × Except DriverError RawValues × List BusOp :=
  (d,
    match env.read16 cmdReadClear with
    | .error e => (.error (.transport e), [BusOp.read16 cmdReadClear])
    | .ok c =>
      match env.read16 cmdReadRed with
      | .error e =>
          (.error (.transport e),
            [BusOp.read16 cmdReadClear, BusOp.read16 cmdReadRed])
      | .ok r =>
        match env.read16 cmdReadGreen with
        | .error e =>
            (.error (.transport e),
              [BusOp.read16 cmdReadClear, BusOp.read16 cmdReadRed,
                BusOp.read16 cmdReadGreen])
        | .ok g =>
          match env.read16 cmdReadBlue with
          | .error e =>
              (.error (.transport e),
                [BusOp.read16 cmdReadClear, BusOp.read16 cmdReadRed,
                  BusOp.read16 cmdReadGreen, BusOp.read16 cmdReadBlue])
          | .ok b =>
              (.ok ⟨c, r, g, b⟩,
                [BusOp.read16 cmdReadClear, BusOp.read16 cmdReadRed,
                  BusOp.read16 cmdReadGreen, BusOp.read16 cmdReadBlue]))

/-- Go `Valid()`: reads the status register and reports whether the
RGBC-valid bit (bit 0) is set.  Does not touch `maxCount`. -/
def Valid (d : Dev) (env : BusEnv) :
    Dev × Except DriverError Bool × List BusOp :=
  (d,
    match env.read8 cmdStatus with
    | .error e => .error (.transport e)
    | .ok status => .ok (decide (status &&& statusValid > 0)),
    [BusOp.read8 cmdStatus])

/-- Go `New(b)`: reads the chip-ID register; rejects any id other than
`chipID`/`chipIDAlt`; writes `enablePower|enableRGBC` (= 3) to the enable
register; sets the integration time to `511*time.Millisecond`; returns
the handle whose `maxCount` was populated by that call.  The fresh handle
starts with the Go zero value `maxCount = 0`. -/
def New (env : BusEnv) : Except DriverError Dev × List BusOp :=
  match env.read8 cmdChipID with
  | .error e => (.error (.transport e), [BusOp.read8 cmdChipID])
  | .ok id =>
    if id ≠ chipID ∧ id ≠ chipIDAlt then
      (.error (.badChipID id), [BusOp.read8 cmdChipID])
    else
      match env.write8 cmdEnable (enablePower ||| enableRGBC) with
      | .error e =>
          (.error (.transport e),
            [BusOp.read8 cmdChipID,
              BusOp.write8 cmdEnable (enablePower ||| enableRGBC)])
      | .ok _ =>
        match SetIntegrationTime { maxCount := 0 } 511000000 env with
        | (d, .ok _, tr) =>
            (.ok d,
              [BusOp.read8 cmdChipID,
                BusOp.write8 cmdEnable (enablePower ||| enableRGBC)] ++ tr)
        | (_, .error e, tr) =>
            (.error e,
              [BusOp.read8 cmdChipID,
                BusOp.write8 cmdEnable (enablePower ||| enableRGBC)] ++ tr)

/-!
A small operational model of a handle's lifetime after `New`: a list of
driver calls, each with the transport environment it ran against.  Only
the handle state (`maxCount`) is tracked; every operation's effect on it
is exactly the effect of the embedded operation above.  `Measure`
delegates to `MeasureRaw` and writes no handle field, so `measureRaw`
stands for both.
-/

/-- One driver call in a handle's post-`New` lifetime. -/
inductive DevOp where
  | setTime (durNs : Int) (env : BusEnv)
  | setGain (g : Nat) (env : BusEnv)
  | halt (env : BusEnv)
  | measureRaw (env : BusEnv)
  | getValid (env : BusEnv)

/-- The handle state after one driver call. -/
def stepDev (d : Dev) : DevOp → Dev
  | .setTime dur env => (SetIntegrationTime d dur env).1
  | .setGain g env => (SetGain d g env).1
  | .halt env => (Halt d env).1
  | .measureRaw env => (MeasureRaw d env).1
  | .getValid env => (Valid d env).1

/-- The handle state after a list of driver calls. -/
def runOps (d : Dev) : List DevOp → Dev
  | [] => d
  | op :: ops => runOps (stepDev d op) ops

/-- The ATIME value of the most recent `SetIntegrationTime` call whose
register write SUCCEEDED (in-range duration and the write returned ok),
starting from `a` (the ATIME successfully written during `New`). -/
def lastWrittenAtime (a : Nat) : List DevOp → Nat
  | [] => a
  | .setTime dur env :: ops =>
      if (¬(dur < 2400000 ∨ dur > 612000000)) ∧
          env.write8 cmdATime (atimeOf dur) = .ok () then
        lastWrittenAtime (atimeOf dur) ops
      else
        lastWrittenAtime a ops
  | .setGain _ _ :: ops => lastWrittenAtime a ops
  | .halt _ :: ops => lastWrittenAtime a ops
  | .measureRaw _ :: ops => lastWrittenAtime a ops
  | .getValid _ :: ops => lastWrittenAtime a ops

/-- The ATIME value most recently COMPUTED by an in-range
`SetIntegrationTime` call, whether or not its register write succeeded,
starting from `a`. -/
def lastSetAtime (a : Nat) : List DevOp → Nat
  | [] => a
  | .setTime dur _ :: ops =>
      if dur < 2400000 ∨ dur > 612000000 then
        lastSetAtime a ops
      else
        lastSetAtime (atimeOf dur) ops
  | .setGain _ _ :: ops => lastSetAtime a ops
  | .halt _ :: ops => lastSetAtime a ops
  | .measureRaw _ :: ops => lastSetAtime a ops
  | .getValid _ :: ops => lastSetAtime a ops

/-!
The command-line utility (`experimental/cmd/tcs3472/main.go`).  `read`
first calls `Valid` once and returns its error (nil when the reading is
merely not yet valid), then loops measuring and printing.  The ticker
loop is unbounded when an interval is given; it is modelled with a fuel
bound on the number of extra iterations (irrelevant for the pre-loop
paths).  The printed `Light` values are float32 ratios of the raw
values; the model records how many measurements were printed rather
than the float text. -/

/-- The measure-and-print loop of `read`: `continuous` is whether an
interval flag was given (Go `t != nil`).  Returns the result, the bus
transactions, and the number of measurements printed. -/
def cliLoop (d : Dev) (env : BusEnv) (continuous : Bool) :
    Nat → Except DriverError Unit × List BusOp × Nat
  | 0 => (.ok (), [], 0)
  | fuel + 1 =>
    match MeasureRaw d env with
    | (_, .error e, tr) => (.error e, tr, 0)
    | (_, .ok _, tr) =>
      if continuous then
        match cliLoop d env continuous fuel with
        | (res, tr2, n) => (res, tr ++ tr2, n + 1)
      else
        (.ok (), tr, 1)

/-- Go `read(d, interval)`: one `Valid` call, then the loop.  On a
transport error from `Valid`, or when the reading is not valid, `read`
returns before any measurement (`return err`, with `err = nil` in the
not-valid case). -/
def cliRead (d : Dev) (env : BusEnv) (continuous : Bool) (fuel : Nat) :
    Except DriverError Unit × List BusOp × Nat :=
  match Valid d env with
  | (_, .error e, tr) => (.error e, tr, 0)
  | (_, .ok v, tr) =>
    if !v then
      (.ok (), tr, 0)
    else
      match cliLoop d env continuous fuel with
      | (res, tr2, n) => (res, tr ++ tr2, n)

/-- The process exit status from Go `mainImpl`/`main`, for the part after
a successful `New`: `err = read(dev, interval); err2 = dev.Halt()`; the
process exits 1 when `mainImpl` returns a non-nil error (`err` first,
else `err2`), and 0 otherwise. -/
def cliExitCode (d : Dev) (env : BusEnv) (continuous : Bool)
    (fuel : Nat) : Nat :=
  match (cliRead d env continuous fuel).1 with
  | .error _ => 1
  | .ok _ =>
    match (Halt d env).2.1 with
    | .error _ => 1
    | .ok _ => 0

/-!
Concrete transport environments used by witnesses and counterexamples.
-/

/-- A healthy transport: chip id reads 0x44, the status register reads
0x10 (interrupt bit only, RGBC-valid clear), channel reads return fixed
counts, every write succeeds. -/
def envOK : BusEnv where
  read8 := fun r =>
    if r = cmdChipID then .ok 0x44
    else if r = cmdStatus then .ok 0x10
    else .ok 0
  read16 := fun r =>
    if r = cmdReadClear then .ok 1000
    else if r = cmdReadRed then .ok 300
    else if r = cmdReadGreen then .ok 400
    else .ok 300
  write8 := fun _ _ => .ok ()

/-- A transport whose reads behave like `envOK` but whose writes all fail
with transport error 7. -/
def envWriteFail : BusEnv where
  read8 := envOK.read8
  read16 := envOK.read16
  write8 := fun _ _ => .error ⟨7⟩

/-- A transport where the chip-ID register reads 0x00. -/
def envBadChip : BusEnv where
  read8 := fun r => if r = cmdChipID then .ok 0x00 else .ok 0
  read16 := envOK.read16
  write8 := fun _ _ => .ok ()

/-- A transport where the clear read succeeds (1000) but the red read
fails with transport error 5. -/
def envRedFail : BusEnv where
  read8 := envOK.read8
  read16 := fun r =>
    if r = cmdReadClear then .ok 1000
    else if r = cmdReadRed then .error ⟨5⟩
    else .ok 0
  write8 := fun _ _ => .ok ()

/-! Helper lemmas shared by the claim theorems. -/

/-- The two-step cap in the source equals a `min`. -/
theorem maxCountFromAtime_eq_min (a : Nat) :
    maxCountFromAtime a = min (a * 1024) 65535 := by
  unfold maxCountFromAtime
  split <;> omega

/-- For in-range durations the `uint8` conversion does not wrap, so the
computed ATIME is exactly `255 - floor(durNs / 2400000)`. -/
theorem atimeOf_formula (dur : Int) (h1 : 2400000 ≤ dur)
    (h2 : dur ≤ 612000000) :
    atimeOf dur = 255 - (dur.tdiv 2400000).toNat := by
  have h0 : (0 : Int) ≤ dur := by omega
  have hq0 : 0 ≤ dur.tdiv 2400000 := Int.tdiv_nonneg h0 (by norm_num)
  have heq : dur.tdiv 2400000 = dur / 2400000 :=
    Int.tdiv_eq_ediv h0 (by norm_num)
  have hcap : (612000000 : Int) / 2400000 = 255 := by decide
  have hle : dur / 2400000 ≤ 255 := by
    have := Int.ediv_le_ediv (by norm_num : (0 : Int) < 2400000) h2
    omega
  have hlt : dur.tdiv 2400000 < 256 := by omega
  unfold atimeOf
  rw [Int.emod_eq_of_lt hq0 hlt]

/-- In-range `SetIntegrationTime`, with the write result still abstract. -/
theorem setIntegrationTime_unfold (d : Dev) (dur : Int) (env : BusEnv)
    (h1 : 2400000 ≤ dur) (h2 : dur ≤ 612000000) :
    SetIntegrationTime d dur env =
      ({ d with maxCount := maxCountFromAtime (atimeOf dur) },
        match env.write8 cmdATime (atimeOf dur) with
        | .error e => .error (.transport e)
        | .ok _ => .ok (),
        [BusOp.write8 cmdATime (atimeOf dur)]) := by
  unfold SetIntegrationTime
  rw [if_neg (by omega)]

/-- A successful `New` leaves the handle's `maxCount` at the value derived
for the default 511 ms integration time. -/
theorem new_ok_maxCount (env : BusEnv) (d : Dev)
    (h : (New env).1 = .ok d) :
    d.maxCount = maxCountFromAtime (atimeOf 511000000) := by
  unfold New at h
  cases hr : env.read8 cmdChipID with
  | error e => simp only [hr] at h; simp at h
  | ok id =>
    simp only [hr] at h
    by_cases hc : id ≠ chipID ∧ id ≠ chipIDAlt
    · rw [if_pos hc] at h; simp at h
    · rw [if_neg hc] at h
      cases hw : env.write8 cmdEnable (enablePower ||| enableRGBC) with
      | error e => simp only [hw] at h; simp at h
      | ok u =>
        simp only [hw] at h
        rw [setIntegrationTime_unfold { maxCount := 0 } 511000000 env
          (by norm_num) (by norm_num)] at h
        cases hw2 : env.write8 cmdATime (atimeOf 511000000) with
        | error e => simp only [hw2] at h; simp at h
        | ok u2 =>
          simp only [hw2] at h
          simp at h
          rw [← h]

/-- `maxCount` after any sequence of driver calls tracks the ATIME value
most recently computed by an in-range `SetIntegrationTime`. -/
theorem runOps_maxCount_aux (ops : List DevOp) : ∀ (d : Dev) (a : Nat),
    d.maxCount = maxCountFromAtime a →
    (runOps d ops).maxCount = maxCountFromAtime (lastSetAtime a ops) := by
  induction ops with
  | nil => intro d a h; exact h
  | cons op ops ih =>
    intro d a h
    cases op with
    | setTime dur env =>
      by_cases hr : dur < 2400000 ∨ dur > 612000000
      · have hstep : stepDev d (DevOp.setTime dur env) = d := by
          simp only [stepDev, SetIntegrationTime]
          rw [if_pos hr]
        simp only [runOps, lastSetAtime]
        rw [if_pos hr, hstep]
        exact ih d a h
      · have hstep : stepDev d (DevOp.setTime dur env) =
            { d with maxCount := maxCountFromAtime (atimeOf dur) } := by
          simp only [stepDev, SetIntegrationTime]
          rw [if_neg hr]
        simp only [runOps, lastSetAtime]
        rw [if_neg hr, hstep]
        exact ih _ _ rfl
    | setGain g env =>
      simp only [runOps, lastSetAtime]
      exact ih d a h
    | halt env =>
      simp only [runOps, lastSetAtime]
      exact ih d a h
    | measureRaw env =>
      simp only [runOps, lastSetAtime]
      exact ih d a h
    | getValid env =>
      simp only [runOps, lastSetAtime]
      exact ih d a h

/-! The claim theorems. -/

/-- Claim C1: for every duration d with 2.4 ms ≤ d ≤ 612 ms,
`SetIntegrationTime d` succeeds, writes `atime = 255 - floor(d_ns /
2400000)` to the ATIME register, and stores `maxCount = min(atime * 1024,
65535)` on the handle; in particular d = 612 ms yields atime 0 and
maxCount 0, and d = 2.4 ms yields atime 254 and maxCount 65535. -/
theorem setIntegrationTime_in_range_spec (d : Dev) (dur : Int)
    (env : BusEnv) (h1 : 2400000 ≤ dur) (h2 : dur ≤ 612000000)
    (hw : env.write8 cmdATime (atimeOf dur) = .ok ()) :
    SetIntegrationTime d dur env =
      ({ maxCount := min (atimeOf dur * 1024) 65535 }, .ok (),
        [BusOp.write8 cmdATime (atimeOf dur)]) ∧
    atimeOf dur = 255 - (dur.tdiv 2400000).toNat ∧
    atimeOf 612000000 = 0 ∧ maxCountFromAtime (atimeOf 612000000) = 0 ∧
    atimeOf 2400000 = 254 ∧
    maxCountFromAtime (atimeOf 2400000) = 65535 := by
  refine ⟨?_, atimeOf_formula dur h1 h2, by decide, by decide, by decide,
    by decide⟩
  rw [setIntegrationTime_unfold d dur env h1 h2, hw,
    maxCountFromAtime_eq_min]

/-- Witness for C1 at d = 612 ms against a healthy transport. -/
theorem setIntegrationTime_in_range_spec_witness :
    ((2400000 : Int) ≤ 612000000) ∧ ((612000000 : Int) ≤ 612000000) ∧
    envOK.write8 cmdATime (atimeOf 612000000) = .ok () ∧
    SetIntegrationTime { maxCount := 44032 } 612000000 envOK =
      ({ maxCount := min (atimeOf 612000000 * 1024) 65535 }, .ok (),
        [BusOp.write8 cmdATime (atimeOf 612000000)]) :=
  ⟨by norm_num, by norm_num, rfl,
    (setIntegrationTime_in_range_spec { maxCount := 44032 } 612000000
      envOK (by norm_num) (by norm_num) rfl).1⟩

/-- Claim C2 is violated by the code: at d = 612 ms the call writes
ATIME = 0, and the documented relationship "(256 − ATIME) × 1024 capped
at 65535" gives 65535, yet the stored `maxCount` is 0 (the code computes
`atime * 1024` capped, contradicting the comment right above it and the
`MaxCount` doc comment's stated range). -/
theorem maxCount_formula_violated :
    (SetIntegrationTime { maxCount := 44032 } 612000000 envOK).2.2 =
      [BusOp.write8 cmdATime 0] ∧
    min ((256 - atimeOf 612000000) * 1024) 65535 = 65535 ∧
    (SetIntegrationTime { maxCount := 44032 } 612000000
      envOK).1.maxCount = 0 ∧
    (SetIntegrationTime { maxCount := 44032 } 612000000
        envOK).1.maxCount ≠
      min ((256 - atimeOf 612000000) * 1024) 65535 := by
  decide

/-- Claim C3: when the ATIME write fails with a transport error,
`SetIntegrationTime` returns that error, yet the handle's `maxCount` has
been set to the newly derived value (it is not rolled back). -/
theorem setIntegrationTime_write_fail_keeps_update (d : Dev) (dur : Int)
    (env : BusEnv) (e : TErr) (h1 : 2400000 ≤ dur)
    (h2 : dur ≤ 612000000)
    (hw : env.write8 cmdATime (atimeOf dur) = .error e) :
    SetIntegrationTime d dur env =
      ({ maxCount := maxCountFromAtime (atimeOf dur) },
        .error (.transport e), [BusOp.write8 cmdATime (atimeOf dur)]) ∧
    MaxCount (SetIntegrationTime d dur env).1 =
      maxCountFromAtime (atimeOf dur) := by
  have h := setIntegrationTime_unfold d dur env h1 h2
  rw [hw] at h
  exact ⟨h, by rw [h]; rfl⟩

/-- Witness for C3: d = 2.4 ms over a transport whose writes fail; the
prior maxCount 44032 is replaced by 65535 although the write failed. -/
theorem setIntegrationTime_write_fail_keeps_update_witness :
    envWriteFail.write8 cmdATime (atimeOf 2400000) = .error ⟨7⟩ ∧
    SetIntegrationTime { maxCount := 44032 } 2400000 envWriteFail =
      ({ maxCount := maxCountFromAtime (atimeOf 2400000) },
        .error (.transport ⟨7⟩),
        [BusOp.write8 cmdATime (atimeOf 2400000)]) ∧
    maxCountFromAtime (atimeOf 2400000) = 65535 :=
  ⟨rfl,
    (setIntegrationTime_write_fail_keeps_update { maxCount := 44032 }
      2400000 envWriteFail ⟨7⟩ (by norm_num) (by norm_num) rfl).1,
    by decide⟩

/-- Claim C4 as stated is false on the code: after a successful `New`
over a healthy transport (`maxCount = 44032`, ATIME 43 written), an
in-range `SetIntegrationTime` of 2.4 ms whose ATIME write fails leaves
`maxCount = 65535`, while the most recently successfully written ATIME
value is still 43, which implies 44032. -/
theorem maxCount_invariant_counterexample :
    (New envOK).1 = .ok { maxCount := 44032 } ∧
    lastWrittenAtime (atimeOf 511000000)
      [DevOp.setTime 2400000 envWriteFail] = 43 ∧
    maxCountFromAtime 43 = 44032 ∧
    (runOps { maxCount := 44032 }
      [DevOp.setTime 2400000 envWriteFail]).maxCount = 65535 ∧
    (runOps { maxCount := 44032 }
        [DevOp.setTime 2400000 envWriteFail]).maxCount ≠
      maxCountFromAtime (lastWrittenAtime (atimeOf 511000000)
        [DevOp.setTime 2400000 envWriteFail]) := by
  decide

/-- Claim C4, amended: at every point after a successful `New`,
`maxCount` equals the value derived from the ATIME value most recently
computed by an in-range `SetIntegrationTime` call (starting from the
511 ms default set inside `New`), whether or not that call's register
write succeeded; no operation other than `SetIntegrationTime` changes
`maxCount`. -/
theorem maxCount_tracks_last_set_atime (env : BusEnv) (d : Dev)
    (ops : List DevOp) (hnew : (New env).1 = .ok d) :
    (runOps d ops).maxCount =
      maxCountFromAtime (lastSetAtime (atimeOf 511000000) ops) :=
  runOps_maxCount_aux ops d (atimeOf 511000000)
    (new_ok_maxCount env d hnew)

/-- Witness for the amended C4 on the very scenario that refutes the
original claim: a failed ATIME write, followed by gain, halt, raw-read
and status calls, none of which move `maxCount` off the tracked value. -/
theorem maxCount_tracks_last_set_atime_witness :
    (New envOK).1 = .ok { maxCount := 44032 } ∧
    (runOps { maxCount := 44032 }
        [DevOp.setTime 2400000 envWriteFail, DevOp.setGain 2 envOK,
          DevOp.halt envOK, DevOp.measureRaw envOK,
          DevOp.getValid envOK]).maxCount =
      maxCountFromAtime (lastSetAtime (atimeOf 511000000)
        [DevOp.setTime 2400000 envWriteFail, DevOp.setGain 2 envOK,
          DevOp.halt envOK, DevOp.measureRaw envOK,
          DevOp.getValid envOK]) :=
  ⟨by decide,
    maxCount_tracks_last_set_atime envOK { maxCount := 44032 }
      [DevOp.setTime 2400000 envWriteFail, DevOp.setGain 2 envOK,
        DevOp.halt envOK, DevOp.measureRaw envOK, DevOp.getValid envOK]
      (by decide)⟩

/-- Claim C5: for every duration outside [2.4 ms, 612 ms],
`SetIntegrationTime` fails with the range error, no bus transaction is
issued, and the handle (hence `maxCount`) is unchanged. -/
theorem setIntegrationTime_out_of_range_rejected (d : Dev) (dur : Int)
    (env : BusEnv) (h : dur < 2400000 ∨ dur > 612000000) :
    SetIntegrationTime d dur env = (d, .error .timeOutOfRange, []) := by
  unfold SetIntegrationTime
  rw [if_pos h]

/-- Witness for C5 at d = 0 (and the range fact for d = 1 s). -/
theorem setIntegrationTime_out_of_range_rejected_witness :
    ((0 : Int) < 2400000 ∨ (0 : Int) > 612000000) ∧
    ((1000000000 : Int) < 2400000 ∨ (1000000000 : Int) > 612000000) ∧
    SetIntegrationTime { maxCount := 44032 } 0 envOK =
      ({ maxCount := 44032 }, .error .timeOutOfRange, []) :=
  ⟨Or.inl (by norm_num), Or.inr (by norm_num),
    setIntegrationTime_out_of_range_rejected { maxCount := 44032 } 0
      envOK (Or.inl (by norm_num))⟩

/-- Claim C6: `New` succeeds only when the chip-ID register reads 0x44 or
0x4D; any other byte makes it fail with the identification error carrying
the observed value, and no handle is returned. -/
theorem new_chip_identification (env : BusEnv) (id : Nat)
    (hread : env.read8 cmdChipID = .ok id) :
    (id ≠ chipID ∧ id ≠ chipIDAlt →
      (New env).1 = .error (.badChipID id)) ∧
    (∀ d : Dev, (New env).1 = .ok d → id = chipID ∨ id = chipIDAlt) := by
  unfold New
  simp only [hread]
  by_cases hc : id ≠ chipID ∧ id ≠ chipIDAlt
  · rw [if_pos hc]
    exact ⟨fun _ => rfl, fun d h => by simp at h⟩
  · rw [if_neg hc]
    refine ⟨fun h => absurd h hc, fun d _ => ?_⟩
    by_cases h44 : id = chipID
    · exact Or.inl h44
    · exact Or.inr (by tauto)

/-- Witness for C6: chip id 0x00 is rejected with the observed value;
chip id 0x44 lets `New` succeed. -/
theorem new_chip_identification_witness :
    envBadChip.read8 cmdChipID = .ok 0 ∧
    (New envBadChip).1 = .error (.badChipID 0) ∧
    (New envOK).1 = .ok { maxCount := 44032 } :=
  ⟨rfl,
    (new_chip_identification envBadChip 0 rfl).1 (by decide),
    by decide⟩

/-- Claim C8: the first failing channel read aborts `MeasureRaw` with
that error; no later channel read is attempted (the transaction list
stops at the failing read) and no `RawValues` result is produced. -/
theorem measureRaw_fail_fast (d : Dev) (env : BusEnv) (e : TErr) :
    (env.read16 cmdReadClear = .error e →
      MeasureRaw d env =
        (d, .error (.transport e), [BusOp.read16 cmdReadClear])) ∧
    (∀ c, env.read16 cmdReadClear = .ok c →
      env.read16 cmdReadRed = .error e →
      MeasureRaw d env = (d, .error (.transport e),
        [BusOp.read16 cmdReadClear, BusOp.read16 cmdReadRed])) ∧
    (∀ c r, env.read16 cmdReadClear = .ok c →
      env.read16 cmdReadRed = .ok r →
      env.read16 cmdReadGreen = .error e →
      MeasureRaw d env = (d, .error (.transport e),
        [BusOp.read16 cmdReadClear, BusOp.read16 cmdReadRed,
          BusOp.read16 cmdReadGreen])) ∧
    (∀ c r g, env.read16 cmdReadClear = .ok c →
      env.read16 cmdReadRed = .ok r →
      env.read16 cmdReadGreen = .ok g →
      env.read16 cmdReadBlue = .error e →
      MeasureRaw d env = (d, .error (.transport e),
        [BusOp.read16 cmdReadClear, BusOp.read16 cmdReadRed,
          BusOp.read16 cmdReadGreen, BusOp.read16 cmdReadBlue])) := by
  refine ⟨fun h1 => ?_, fun c h1 h2 => ?_, fun c r h1 h2 h3 => ?_,
    fun c r g h1 h2 h3 h4 => ?_⟩
  · unfold MeasureRaw; simp only [h1]
  · unfold MeasureRaw; simp only [h1, h2]
  · unfold MeasureRaw; simp only [h1, h2, h3]
  · unfold MeasureRaw; simp only [h1, h2, h3, h4]

/-- Witness for C8: the red read fails after a successful clear read; the
green and blue registers are never touched. -/
theorem measureRaw_fail_fast_witness :
    envRedFail.read16 cmdReadClear = .ok 1000 ∧
    envRedFail.read16 cmdReadRed = .error ⟨5⟩ ∧
    MeasureRaw { maxCount := 44032 } envRedFail =
      ({ maxCount := 44032 }, .error (.transport ⟨5⟩),
        [BusOp.read16 cmdReadClear, BusOp.read16 cmdReadRed]) :=
  ⟨rfl, rfl,
    (measureRaw_fail_fast { maxCount := 44032 } envRedFail ⟨5⟩).2.1 1000
      rfl rfl⟩

/-- Claim C9: `Halt` writes zero to the enable register, and calling it
twice in succession succeeds both times, each call writing zero. -/
theorem halt_writes_zero_idempotent (d : Dev) (env : BusEnv)
    (hw : env.write8 cmdEnable 0 = .ok ()) :
    Halt d env = (d, .ok (), [BusOp.write8 cmdEnable 0]) ∧
    Halt (Halt d env).1 env =
      ((Halt d env).1, .ok (), [BusOp.write8 cmdEnable 0]) := by
  have h1 : Halt d env = (d, .ok (), [BusOp.write8 cmdEnable 0]) := by
    unfold Halt
    rw [hw]
  exact ⟨h1, h1⟩

/-- Witness for C9 against a healthy transport. -/
theorem halt_writes_zero_idempotent_witness :
    envOK.write8 cmdEnable 0 = .ok () ∧
    Halt { maxCount := 44032 } envOK =
      ({ maxCount := 44032 }, .ok (), [BusOp.write8 cmdEnable 0]) ∧
    Halt (Halt { maxCount := 44032 } envOK).1 envOK =
      ((Halt { maxCount := 44032 } envOK).1, .ok (),
        [BusOp.write8 cmdEnable 0]) :=
  ⟨rfl,
    (halt_writes_zero_idempotent { maxCount := 44032 } envOK rfl).1,
    (halt_writes_zero_idempotent { maxCount := 44032 } envOK rfl).2⟩

/-- Claim C10: when the single initial `Valid` call of the CLI `read`
function reports ok-but-not-valid (status byte with bit 0 clear), `read`
returns nil at once: the only bus transaction is the status read, no
measurement is taken or printed, and the process exit status is 0
(the subsequent `Halt` write succeeding). -/
theorem cli_read_not_valid_skips_measure (d : Dev) (env : BusEnv)
    (continuous : Bool) (fuel : Nat) (s : Nat)
    (hs : env.read8 cmdStatus = .ok s) (hv : s &&& statusValid = 0)
    (hh : env.write8 cmdEnable 0 = .ok ()) :
    cliRead d env continuous fuel =
      (.ok (), [BusOp.read8 cmdStatus], 0) ∧
    cliExitCode d env continuous fuel = 0 := by
  have hvd : Valid d env = (d, .ok false, [BusOp.read8 cmdStatus]) := by
    unfold Valid
    simp only [hs]
    rw [hv]
    rfl
  have h1 : cliRead d env continuous fuel =
      (.ok (), [BusOp.read8 cmdStatus], 0) := by
    unfold cliRead
    simp only [hvd]
    rfl
  refine ⟨h1, ?_⟩
  unfold cliExitCode
  have h2 : (Halt d env).2.1 = Except.ok () := by
    unfold Halt
    rw [hh]
  simp only [h1, h2]

/-- Witness for C10: status byte 0x10 (interrupt bit only) over an
otherwise healthy transport. -/
theorem cli_read_not_valid_skips_measure_witness :
    envOK.read8 cmdStatus = .ok 0x10 ∧
    (0x10 : Nat) &&& statusValid = 0 ∧
    cliRead { maxCount := 44032 } envOK false 5 =
      (.ok (), [BusOp.read8 cmdStatus], 0) ∧
    cliExitCode { maxCount := 44032 } envOK false 5 = 0 :=
  ⟨rfl, by decide,
    (cli_read_not_valid_skips_measure { maxCount := 44032 } envOK false
      5 0x10 rfl (by decide) rfl).1,
    (cli_read_not_valid_skips_measure { maxCount := 44032 } envOK false
      5 0x10 rfl (by decide) rfl).2⟩

end Tcs3472
